import Mathlib

/-!
Verification of the dry-run migration planner
`server/prisma/migrations/dry_run_migrate_snapshots_to_nisab.py`.

The script is embedded shallowly:

* `resolve_db_path`, `to_iso`, and the per-row loop body of `main`
  (locals `snapshot_id` ... `notes`, the written CSV row) are translated
  directly as pure Lean functions.
* Python's `datetime.fromisoformat` / `datetime.isoformat` (standard
  library, not part of the repository) are modelled by `fromisoformat` /
  `isoformat` below, restricted to the extended ISO-8601 formats
  `YYYY-MM-DD` and `YYYY-MM-DD{sep}HH:MM:SS` with separator `T` or space,
  without fractional seconds or timezone offsets; field ranges are
  validated as CPython does (month 1-12, day within the Gregorian month,
  hour 0-23, minute/second 0-59, year 1-9999).
* The filesystem, the environment, and the SQLite store are abstracted
  into a `World`; `main` is embedded as a function from a `World` to an
  exit code plus the trace of external effects (connection opened,
  connection closed, output file written).  `fetch_snapshots` is a single
  SQL query executed by the SQLite engine, so its outcome is a `World`
  field: either an `OperationalError` message or the ordered row list.
* SQLite `REAL` values are modelled as rationals; the script only passes
  them through unchanged, so the numeric representation is irrelevant to
  every property proved here.
-/

namespace ZakApp

/-- A SQLite/CSV cell value as handed to `csv.writer.writerow`:
`None`, a text value, an integer, a real, or a Python boolean. -/
inductive PyVal where
  | none
  | str (s : String)
  | int (n : Int)
  | float (q : Rat)
  | bool (b : Bool)
deriving DecidableEq

/-- A Python `datetime` value (date and time components; microseconds and
timezone are outside the modelled fragment and therefore zero/absent). -/
structure PyDateTime where
  year : Nat
  month : Nat
  day : Nat
  hour : Nat
  minute : Nat
  second : Nat
deriving DecidableEq

/-- Number of days of a month in the (proleptic) Gregorian calendar, as
validated by Python's `datetime` constructor. -/
def daysInMonth (y m : Nat) : Nat :=
  if m = 2 then (if (y % 4 = 0 ∧ y % 100 ≠ 0) ∨ y % 400 = 0 then 29 else 28)
  else if m = 4 ∨ m = 6 ∨ m = 9 ∨ m = 11 then 30 else 31

/-- Range constraints enforced by Python's `datetime` constructor. -/
abbrev DTvalid (dt : PyDateTime) : Prop :=
  1 ≤ dt.year ∧ dt.year ≤ 9999 ∧ 1 ≤ dt.month ∧ dt.month ≤ 12 ∧
  1 ≤ dt.day ∧ dt.day ≤ daysInMonth dt.year dt.month ∧
  dt.hour ≤ 23 ∧ dt.minute ≤ 59 ∧ dt.second ≤ 59

/-- The decimal digit character for `n ≤ 9` (used by zero-padded
`datetime.isoformat` output). -/
def digitChar : Nat → Char
  | 0 => '0'
  | 1 => '1'
  | 2 => '2'
  | 3 => '3'
  | 4 => '4'
  | 5 => '5'
  | 6 => '6'
  | 7 => '7'
  | 8 => '8'
  | 9 => '9'
  | _ => 'x'

/-- Value of a decimal digit character, `none` for non-digits. -/
def decodeDigit (c : Char) : Option Nat :=
  if c.isDigit then some (c.toNat - 48) else none

/-- Two-digit decimal field of an ISO-8601 string. -/
def decode2 (a b : Char) : Option Nat :=
  match decodeDigit a, decodeDigit b with
  | some x, some y => some (10 * x + y)
  | _, _ => Option.none

/-- Four-digit decimal field (the year) of an ISO-8601 string. -/
def decode4 (a b c d : Char) : Option Nat :=
  match decodeDigit a, decodeDigit b, decodeDigit c, decodeDigit d with
  | some x1, some x2, some x3, some x4 => some (1000 * x1 + 100 * x2 + 10 * x3 + x4)
  | _, _, _, _ => Option.none

/-- Range-validating `datetime` constructor: `some` exactly when CPython's
`datetime(...)` would not raise `ValueError`. -/
def mkDateTime (y mo d h mi s : Nat) : Option PyDateTime :=
  if DTvalid ⟨y, mo, d, h, mi, s⟩ then some ⟨y, mo, d, h, mi, s⟩ else Option.none

/-- Character-level parser behind `fromisoformat`. -/
def fromisoformatList (l : List Char) : Option PyDateTime :=
  match l with
  | [y1, y2, y3, y4, '-', m1, m2, '-', d1, d2] =>
    (match decode4 y1 y2 y3 y4, decode2 m1 m2, decode2 d1 d2 with
     | some y, some mo, some d => mkDateTime y mo d 0 0 0
     | _, _, _ => Option.none)
  | [y1, y2, y3, y4, '-', m1, m2, '-', d1, d2, sep, h1, h2, ':', n1, n2, ':', s1, s2] =>
    if sep = 'T' ∨ sep = ' ' then
      (match decode4 y1 y2 y3 y4, decode2 m1 m2, decode2 d1 d2,
             decode2 h1 h2, decode2 n1 n2, decode2 s1 s2 with
       | some y, some mo, some d, some h, some mi, some s => mkDateTime y mo d h mi s
       | _, _, _, _, _, _ => Option.none)
    else Option.none
  | _ => Option.none

/-- Modelled from Python's standard library: `datetime.fromisoformat`,
restricted to `YYYY-MM-DD` and `YYYY-MM-DD{sep}HH:MM:SS` (separator `T`
or space, no fractional seconds, no timezone offset).  Returns `none`
where CPython raises `ValueError`/`TypeError`. -/
def fromisoformat (s : String) : Option PyDateTime :=
  fromisoformatList s.toList

/-- Zero-padded two-digit decimal rendering. -/
def pad2chars (n : Nat) : List Char :=
  [digitChar (n / 10), digitChar (n % 10)]

/-- Zero-padded four-digit decimal rendering. -/
def pad4chars (n : Nat) : List Char :=
  [digitChar (n / 1000), digitChar (n / 100 % 10), digitChar (n / 10 % 10), digitChar (n % 10)]

/-- Modelled from Python's standard library: `datetime.isoformat` on a
datetime without microseconds or timezone, i.e. `YYYY-MM-DDTHH:MM:SS`. -/
def isoformat (dt : PyDateTime) : String :=
  String.mk (pad4chars dt.year ++ ('-' :: pad2chars dt.month) ++ ('-' :: pad2chars dt.day) ++
    ('T' :: pad2chars dt.hour) ++ (':' :: pad2chars dt.minute) ++ (':' :: pad2chars dt.second))

/-- Python `str.startswith` (the `String.startsWith` of the standard
library, expressed on character lists so that it evaluates by `decide`). -/
def startswith (s p : String) : Bool :=
  p.toList.isPrefixOf s.toList

/-- Python truthiness of an optional string (`None` and `''` are falsy),
as used by `db_arg or os.environ.get('DATABASE_URL')`. -/
def pyTruthy : Option String → Bool
  | Option.none => false
  | some s => s != ""

/-- Message of the `SystemExit` raised when no database location is given. -/
def noDbMessage : String :=
  "Database path not provided via --db or DATABASE_URL environment variable"

/-- Embeds `resolve_db_path` (lines 30-38): prefer the truthy explicit
argument, else the `DATABASE_URL` environment value; raise `SystemExit`
(modelled as `Except.error`) when the result is `None` or empty; strip a
leading `file:` scheme from whichever string was selected. -/
def resolve_db_path (db_arg : Option String) (database_url : Option String) :
    Except String String :=
  let db_url := if pyTruthy db_arg then db_arg else database_url
  match db_url with
  | Option.none => Except.error noDbMessage
  | some u =>
    if u = "" then Except.error noDbMessage
    else if startswith u "file:" then Except.ok (u.drop ("file:".length))
    else Except.ok u

/-- One row of `asset_snapshots` as returned by the `SELECT` in
`fetch_snapshots`, with the column types of the store's schema
(`TEXT` keys, nullable `TEXT`/`REAL`/`INTEGER` data, `0/1` flag). -/
structure LegacySnapshot where
  id : String
  userId : String
  snapshotDate : Option String
  snapshotType : Option String
  totalValue : Option Rat
  assetCount : Option Int
  islamicYear : Option String
  isLocked : Int
  createdAt : String
deriving DecidableEq

/-- Embeds `to_iso` (lines 55-63): `None` becomes `''`; a string that
parses as ISO-8601 is re-serialized with `isoformat`; anything else is
passed through `str(...)` unchanged. -/
def to_iso (ts_str : Option String) : String :=
  match ts_str with
  | Option.none => ""
  | some s =>
    match fromisoformat s with
    | some dt => isoformat dt
    | Option.none => s

/-- Local `snapshot_date` of the loop body of `main`. -/
def snapshot_date (r : LegacySnapshot) : String :=
  to_iso r.snapshotDate

/-- Local `islamic_year` of the loop body: `rowd.get('islamicYear') or ''`. -/
def islamic_year (r : LegacySnapshot) : String :=
  Option.getD r.islamicYear ""

/-- Local `snapshot_type` of the loop body: `rowd.get('snapshotType') or ''`. -/
def snapshot_type (r : LegacySnapshot) : String :=
  Option.getD r.snapshotType ""

/-- Local `total_value` of the loop body: the raw value, or `''` for `None`. -/
def total_value (r : LegacySnapshot) : PyVal :=
  match r.totalValue with
  | some q => PyVal.float q
  | Option.none => PyVal.str ""

/-- Local `asset_count` of the loop body: the raw value, or `''` for `None`. -/
def asset_count (r : LegacySnapshot) : PyVal :=
  match r.assetCount with
  | some n => PyVal.int n
  | Option.none => PyVal.str ""

/-- Local `is_locked` of the loop body: `bool(rowd.get('isLocked'))`. -/
def is_locked (r : LegacySnapshot) : Bool :=
  r.isLocked != 0

/-- Local `created_at` of the loop body: `to_iso(rowd.get('createdAt'))`. -/
def created_at (r : LegacySnapshot) : String :=
  to_iso (some r.createdAt)

/-- Embeds the planned-year heuristic (lines 107-113): keep a non-empty
`islamic_year`; otherwise, when `snapshot_date` is non-empty, try to parse
it and take the calendar year as a string, degrading to `''` on failure. -/
def planned_nisab_year (r : LegacySnapshot) : String :=
  if islamic_year r = "" ∧ snapshot_date r ≠ "" then
    match fromisoformat (snapshot_date r) with
    | some dt => toString dt.year
    | Option.none => ""
  else islamic_year r

/-- Local `planned_nisab_value` of the loop body: `total_value` unchanged. -/
def planned_nisab_value (r : LegacySnapshot) : PyVal :=
  total_value r

/-- Local `notes` of the loop body:
`f'snapshot_type=...; is_locked=...'` with Python boolean rendering. -/
def notes (r : LegacySnapshot) : String :=
  "snapshot_type=" ++ snapshot_type r ++ "; is_locked=" ++
    (if is_locked r then "True" else "False")

/-- The 12-cell data row passed to `writer.writerow` for one snapshot
(lines 115-122); note the source writes `planned_nisab_value` both at
position 5 (the `total_value` column) and position 10. -/
def plannedRow (r : LegacySnapshot) : List PyVal :=
  [PyVal.str r.id, PyVal.str r.userId, PyVal.str (snapshot_date r),
   PyVal.str (islamic_year r), PyVal.str (snapshot_type r),
   planned_nisab_value r, asset_count r, PyVal.bool (is_locked r),
   PyVal.str (created_at r),
   PyVal.str (planned_nisab_year r), planned_nisab_value r, PyVal.str (notes r)]

/-- The fixed header row written before the data rows (lines 87-92). -/
def header : List PyVal :=
  [PyVal.str "snapshot_id", PyVal.str "user_id", PyVal.str "snapshot_date",
   PyVal.str "islamic_year", PyVal.str "snapshot_type", PyVal.str "total_value",
   PyVal.str "asset_count", PyVal.str "is_locked", PyVal.str "created_at",
   PyVal.str "planned_nisab_year", PyVal.str "planned_nisab_value", PyVal.str "notes"]

/-- Externally observable side effects of one run. -/
inductive Event where
  | connect (path : String)
  | closeConnection
  | writeFile (path : String) (rows : List (List PyVal))
deriving DecidableEq

/-- The environment of one invocation: CLI arguments, environment
variable, filesystem, and the outcome of the single `SELECT` against the
store at the resolved path (`Except.error` is the `OperationalError`
message raised for a missing table/column). -/
structure World where
  dbArg : Option String
  outArg : String
  databaseUrl : Option String
  pathExists : String → Bool
  fetchResult : Except String (List LegacySnapshot)
  scriptDir : String

/-- Process exit code together with the ordered effect trace. -/
structure RunResult where
  exitCode : Nat
  events : List Event
deriving DecidableEq

/-- Embeds `main` (lines 66-126): resolve the path (`SystemExit` from
`resolve_db_path` terminates the process with code 1), check existence
(exit 2), connect, run `fetch_snapshots` (an `OperationalError` is caught
and turned into exit 3), then write the header and one derived row per
fetched row to `os.path.join(dirname(__file__), args.out)` and exit 0.
The source never calls `conn.close()`, so no `Event.closeConnection` is
ever emitted. -/
def main (w : World) : RunResult :=
  match resolve_db_path w.dbArg w.databaseUrl with
  | Except.error _ => ⟨1, []⟩
  | Except.ok db_path =>
    if w.pathExists db_path = false then ⟨2, []⟩
    else
      match w.fetchResult with
      | Except.error _ => ⟨3, [Event.connect db_path]⟩
      | Except.ok rows =>
        let out_path := w.scriptDir ++ "/" ++ w.outArg
        ⟨0, [Event.connect db_path,
             Event.writeFile out_path (header :: rows.map plannedRow)]⟩

lemma decodeDigit_digitChar (n : Nat) (h : n ≤ 9) : decodeDigit (digitChar n) = some n := by
  interval_cases n <;> rfl

lemma decode2_pad (n : Nat) (h : n ≤ 99) :
    decode2 (digitChar (n / 10)) (digitChar (n % 10)) = some n := by
  rw [decode2, decodeDigit_digitChar (n / 10) (by omega), decodeDigit_digitChar (n % 10) (by omega)]
  simp only [Option.some.injEq]
  omega

lemma decode4_pad (n : Nat) (h : n ≤ 9999) :
    decode4 (digitChar (n / 1000)) (digitChar (n / 100 % 10))
      (digitChar (n / 10 % 10)) (digitChar (n % 10)) = some n := by
  rw [decode4, decodeDigit_digitChar (n / 1000) (by omega),
    decodeDigit_digitChar (n / 100 % 10) (by omega),
    decodeDigit_digitChar (n / 10 % 10) (by omega),
    decodeDigit_digitChar (n % 10) (by omega)]
  simp only [Option.some.injEq]
  omega

lemma mkDateTime_some {y mo d h mi s : Nat} {dt : PyDateTime}
    (hm : mkDateTime y mo d h mi s = some dt) :
    dt = ⟨y, mo, d, h, mi, s⟩ ∧ DTvalid dt := by
  unfold mkDateTime at hm
  split at hm
  · cases hm
    exact ⟨rfl, by assumption⟩
  · cases hm

lemma fromiso_valid {s : String} {dt : PyDateTime}
    (h : fromisoformat s = some dt) : DTvalid dt := by
  unfold fromisoformat fromisoformatList at h
  split at h
  · split at h
    · exact (mkDateTime_some h).2
    · cases h
  · split at h
    · split at h
      · exact (mkDateTime_some h).2
      · cases h
    · cases h
  · cases h

lemma fromisoformat_isoformat (dt : PyDateTime) (hv : DTvalid dt) :
    fromisoformat (isoformat dt) = some dt := by
  obtain ⟨y, mo, d, h, mi, s⟩ := dt
  obtain ⟨h1, h2, h3, h4, h5, h6, h7, h8, h9⟩ := hv
  have b1 : 1 ≤ y := h1
  have b2 : y ≤ 9999 := h2
  have b3 : 1 ≤ mo := h3
  have b4 : mo ≤ 12 := h4
  have b5 : 1 ≤ d := h5
  have b6 : d ≤ 31 := by
    have : d ≤ daysInMonth y mo := h6
    unfold daysInMonth at this
    split at this <;> [skip; split at this] <;> [split at this; skip; skip] <;> omega
  have b7 : h ≤ 23 := h7
  have b8 : mi ≤ 59 := h8
  have b9 : s ≤ 59 := h9
  show fromisoformatList (String.toList (isoformat ⟨y, mo, d, h, mi, s⟩)) = _
  rw [show String.toList (isoformat ⟨y, mo, d, h, mi, s⟩) =
      pad4chars y ++ ('-' :: pad2chars mo) ++ ('-' :: pad2chars d) ++
      ('T' :: pad2chars h) ++ (':' :: pad2chars mi) ++ (':' :: pad2chars s) from rfl]
  simp only [pad4chars, pad2chars, List.cons_append, List.nil_append]
  rw [fromisoformatList]
  rw [if_pos (Or.inl rfl)]
  rw [decode4_pad y (by omega), decode2_pad mo (by omega), decode2_pad d (by omega),
    decode2_pad h (by omega), decode2_pad mi (by omega), decode2_pad s (by omega)]
  show mkDateTime y mo d h mi s = _
  rw [mkDateTime, if_pos ⟨h1, h2, h3, h4, h5, h6, h7, h8, h9⟩]

lemma fromisoformat_roundtrip {s : String} {dt : PyDateTime}
    (h : fromisoformat s = some dt) : fromisoformat (isoformat dt) = some dt :=
  fromisoformat_isoformat dt (fromiso_valid h)

lemma isoformat_ne_empty (dt : PyDateTime) : isoformat dt ≠ "" := by
  intro h
  have hd := congrArg String.data h
  simp [isoformat, pad4chars, pad2chars] at hd

lemma to_iso_none : to_iso Option.none = "" := rfl

lemma to_iso_fail {s : String} (h : fromisoformat s = Option.none) :
    to_iso (some s) = s := by
  simp [to_iso, h]

lemma to_iso_ok {s : String} {dt : PyDateTime} (h : fromisoformat s = some dt) :
    to_iso (some s) = isoformat dt := by
  simp [to_iso, h]

lemma fromisoformat_empty : fromisoformat "" = Option.none := rfl

instance {ε α : Type} [DecidableEq ε] [DecidableEq α] : DecidableEq (Except ε α)
  | Except.error a, Except.error b =>
    if h : a = b then Decidable.isTrue (congrArg Except.error h)
    else Decidable.isFalse (fun hh => h (Except.error.inj hh))
  | Except.error _, Except.ok _ => Decidable.isFalse (fun hh => Except.noConfusion hh)
  | Except.ok _, Except.error _ => Decidable.isFalse (fun hh => Except.noConfusion hh)
  | Except.ok a, Except.ok b =>
    if h : a = b then Decidable.isTrue (congrArg Except.ok h)
    else Decidable.isFalse (fun hh => h (Except.ok.inj hh))

lemma plannedRow_get2 (r : LegacySnapshot) :
    (plannedRow r).get? 2 = some (PyVal.str (snapshot_date r)) := rfl

lemma plannedRow_get5 (r : LegacySnapshot) :
    (plannedRow r).get? 5 = some (planned_nisab_value r) := rfl

lemma plannedRow_get9 (r : LegacySnapshot) :
    (plannedRow r).get? 9 = some (PyVal.str (planned_nisab_year r)) := rfl

lemma plannedRow_get10 (r : LegacySnapshot) :
    (plannedRow r).get? 10 = some (planned_nisab_value r) := rfl

/-- Claim C1 counterexample: the explicit `--db` argument
`file:./prisma/data/dev.db` is NOT used verbatim; `resolve_db_path`
strips the `file:` scheme from the explicit argument as well. -/
theorem C1_counterexample :
    resolve_db_path (some "file:./prisma/data/dev.db") Option.none =
      Except.ok "./prisma/data/dev.db" ∧
    (Except.ok "./prisma/data/dev.db" : Except String String) ≠
      Except.ok "file:./prisma/data/dev.db" := by
  exact ⟨by decide, by decide⟩

/-- Claim C1 (amended): a non-empty explicit path argument wins over the
fallback, but the `file:` scheme stripping applies to it just as to the
fallback string: the resolved path is the argument verbatim only when the
argument does not start with `file:`, and the argument minus the `file:`
prefix otherwise. -/
theorem C1_explicit_path_resolution (s : String) (env : Option String) (hs : s ≠ "") :
    resolve_db_path (some s) env =
      Except.ok (if startswith s "file:" then s.drop ("file:".length) else s) := by
  have ht : pyTruthy (some s) = true := by
    simp [pyTruthy, hs]
  unfold resolve_db_path
  rw [ht]
  simp only [if_true]
  rw [if_neg hs]
  split <;> rfl

/-- Claim C1 witness: the amended behaviour at the concrete argument
`file:abc` with no fallback set. -/
theorem C1_witness :
    resolve_db_path (some "file:abc") Option.none = Except.ok "abc" := by
  have h := C1_explicit_path_resolution "file:abc" Option.none (by decide)
  rw [h]
  decide

/-- Claim C10: an explicit path argument that is the empty string is
falsy in `db_arg or os.environ.get('DATABASE_URL')`, so the resolver
behaves exactly as if `--db` were absent; with the fallback also unset it
degenerates to the missing-location `SystemExit`. -/
theorem C10_empty_arg_falls_back (env : Option String) :
    resolve_db_path (some "") env = resolve_db_path Option.none env ∧
    resolve_db_path (some "") Option.none = Except.error noDbMessage :=
  ⟨rfl, rfl⟩

/-- Claim C5: `planned_nisab_value` (written at column index 10) is
`totalValue` unchanged: a real value passes through as that exact
rational, and `None` passes through as the empty cell. -/
theorem C5_planned_value_identity (r : LegacySnapshot) :
    (∀ q : Rat, r.totalValue = some q →
      (plannedRow r).get? 10 = some (PyVal.float q)) ∧
    (r.totalValue = Option.none → (plannedRow r).get? 10 = some (PyVal.str "")) := by
  constructor
  · intro q hq
    rw [plannedRow_get10]
    unfold planned_nisab_value total_value
    rw [hq]
  · intro hq
    rw [plannedRow_get10]
    unfold planned_nisab_value total_value
    rw [hq]

/-- Claim C5 witness: `totalValue = 15000.50` passes through exactly. -/
theorem C5_witness :
    (plannedRow ⟨"s1", "u1", Option.none, Option.none, some (15000.5 : Rat),
      Option.none, Option.none, 0, "2024-01-01T00:00:00"⟩).get? 10 =
      some (PyVal.float (15000.5 : Rat)) :=
  (C5_planned_value_identity _).1 (15000.5 : Rat) rfl

/-- Claim C9: the writer emits the local variable `planned_nisab_value`
both at column index 5 (the `total_value` column) and at column index 10
(the `planned_nisab_value` column), and that variable is exactly the
mapped `totalValue` cell, so the two columns always hold the identical
value. -/
theorem C9_duplicate_value_columns (r : LegacySnapshot) :
    (plannedRow r).get? 5 = some (planned_nisab_value r) ∧
    (plannedRow r).get? 10 = some (planned_nisab_value r) ∧
    planned_nisab_value r = total_value r :=
  ⟨rfl, rfl, rfl⟩

/-- Claim C4: the planned-year cell (column index 9) is `islamicYear`
whenever that is a non-empty string; otherwise it is the calendar year,
rendered as a string, of the datetime parsed from `snapshotDate`;
otherwise (null, empty, or unparseable `snapshotDate`) it is the empty
string.  The derivation is a total Lean function, so no exception can
propagate from it. -/
theorem C4_planned_year_derivation (r : LegacySnapshot) :
    (∀ y : String, r.islamicYear = some y → y ≠ "" →
      (plannedRow r).get? 9 = some (PyVal.str y)) ∧
    (∀ (s : String) (dt : PyDateTime),
      (r.islamicYear = Option.none ∨ r.islamicYear = some "") →
      r.snapshotDate = some s → fromisoformat s = some dt →
      (plannedRow r).get? 9 = some (PyVal.str (toString dt.year))) ∧
    ((r.islamicYear = Option.none ∨ r.islamicYear = some "") →
      (r.snapshotDate = Option.none ∨ r.snapshotDate = some "" ∨
        (∃ s : String, r.snapshotDate = some s ∧ fromisoformat s = Option.none)) →
      (plannedRow r).get? 9 = some (PyVal.str "")) := by
  refine ⟨?_, ?_, ?_⟩
  · intro y hy hne
    rw [plannedRow_get9]
    unfold planned_nisab_year
    have hiy : islamic_year r = y := by
      unfold islamic_year
      rw [hy]
      rfl
    rw [hiy, if_neg (fun hc => hne hc.1)]
  · intro s dt hempty hs hparse
    have hiy : islamic_year r = "" := by
      unfold islamic_year
      rcases hempty with h | h <;> rw [h] <;> rfl
    have hsd : snapshot_date r = isoformat dt := by
      unfold snapshot_date
      rw [hs, to_iso_ok hparse]
    rw [plannedRow_get9]
    unfold planned_nisab_year
    rw [hiy, hsd, if_pos ⟨rfl, isoformat_ne_empty dt⟩, fromisoformat_roundtrip hparse]
  · intro hempty hbad
    have hiy : islamic_year r = "" := by
      unfold islamic_year
      rcases hempty with h | h <;> rw [h] <;> rfl
    rw [plannedRow_get9]
    unfold planned_nisab_year
    rw [hiy]
    rcases hbad with h | h | ⟨s, hs, hn⟩
    · have hsd : snapshot_date r = "" := by
        unfold snapshot_date
        rw [h, to_iso_none]
      rw [hsd, if_neg (fun hc => hc.2 rfl)]
    · have hsd : snapshot_date r = "" := by
        unfold snapshot_date
        rw [h, to_iso_fail fromisoformat_empty]
      rw [hsd, if_neg (fun hc => hc.2 rfl)]
    · have hsd : snapshot_date r = s := by
        unfold snapshot_date
        rw [hs, to_iso_fail hn]
      by_cases hse : s = ""
      · rw [hsd, hse, if_neg (fun hc => hc.2 rfl)]
      · rw [hsd, if_pos ⟨rfl, hse⟩, hn]

/-- Claim C4 witness: the three derivation branches at concrete rows:
a present `islamicYear = "1445"` wins; a null `islamicYear` with
`snapshotDate = "2023-06-15T00:00:00"` yields `"2023"`; a null
`islamicYear` with `snapshotDate = "not-a-date"` degrades to `""`. -/
theorem C4_witness :
    (plannedRow ⟨"a", "u", some "2020-01-01", Option.none, Option.none,
      Option.none, some "1445", 0, "t"⟩).get? 9 = some (PyVal.str "1445") ∧
    (plannedRow ⟨"b", "u", some "2023-06-15T00:00:00", Option.none, Option.none,
      Option.none, Option.none, 0, "t"⟩).get? 9 = some (PyVal.str "2023") ∧
    (plannedRow ⟨"c", "u", some "not-a-date", Option.none, Option.none,
      Option.none, Option.none, 0, "t"⟩).get? 9 = some (PyVal.str "") := by
  refine ⟨?_, ?_, ?_⟩
  · exact (C4_planned_year_derivation _).1 "1445" rfl (by decide)
  · exact (C4_planned_year_derivation _).2.1 "2023-06-15T00:00:00"
      ⟨2023, 6, 15, 0, 0, 0⟩ (Or.inl rfl) rfl (by decide)
  · exact (C4_planned_year_derivation _).2.2 (Or.inl rfl)
      (Or.inr (Or.inr ⟨"not-a-date", rfl, by decide⟩))

/-- Claim C2 counterexample: the stored `snapshotDate` value
`"2023-06-15"` does not appear verbatim in the output row; the writer
emits the ISO-normalized `"2023-06-15T00:00:00"` instead. -/
theorem C2_counterexample :
    (plannedRow ⟨"s1", "u1", some "2023-06-15", Option.none, Option.none,
      Option.none, Option.none, 1, "2024-01-02T03:04:05"⟩).get? 2 =
      some (PyVal.str "2023-06-15T00:00:00") ∧
    PyVal.str "2023-06-15T00:00:00" ≠ PyVal.str "2023-06-15" := by
  exact ⟨by decide, by decide⟩

/-- Claim C2 (amended): every original field appears in the output row at
a fixed column, but not all verbatim: `id`, `userId`, `totalValue` and
`assetCount` pass through unchanged (nulls as empty cells), `islamicYear`
and `snapshotType` have null mapped to the empty string, `isLocked` is
converted to a Python boolean, and `snapshotDate`/`createdAt` are passed
through the `to_iso` normalization, which maps null to the empty string,
leaves any string that does not parse as ISO-8601 unchanged, and may
re-serialize (hence alter) strings that do parse. -/
theorem C2_fields_mapped (r : LegacySnapshot) :
    (plannedRow r).get? 0 = some (PyVal.str r.id) ∧
    (plannedRow r).get? 1 = some (PyVal.str r.userId) ∧
    (plannedRow r).get? 2 = some (PyVal.str (to_iso r.snapshotDate)) ∧
    (plannedRow r).get? 3 = some (PyVal.str (Option.getD r.islamicYear "")) ∧
    (plannedRow r).get? 4 = some (PyVal.str (Option.getD r.snapshotType "")) ∧
    (plannedRow r).get? 5 = some (total_value r) ∧
    (plannedRow r).get? 6 = some (asset_count r) ∧
    (plannedRow r).get? 7 = some (PyVal.bool (is_locked r)) ∧
    (plannedRow r).get? 8 = some (PyVal.str (to_iso (some r.createdAt))) ∧
    (∀ s : String, fromisoformat s = Option.none → to_iso (some s) = s) :=
  ⟨rfl, rfl, rfl, rfl, rfl, rfl, rfl, rfl, rfl, fun _ h => to_iso_fail h⟩

/-- Claim C2 witness: the amended mapping at a concrete row, including the
unparseable-timestamp passthrough of `to_iso` at `"not-a-date"`. -/
theorem C2_witness :
    (plannedRow ⟨"id9", "u9", Option.none, Option.none, Option.none,
      Option.none, Option.none, 0, "x"⟩).get? 0 = some (PyVal.str "id9") ∧
    to_iso (some "not-a-date") = "not-a-date" := by
  constructor
  · exact (C2_fields_mapped _).1
  · exact (C2_fields_mapped ⟨"id9", "u9", Option.none, Option.none, Option.none,
      Option.none, Option.none, 0, "x"⟩).2.2.2.2.2.2.2.2.2 "not-a-date" (by decide)

lemma main_resolved (w : World) (p : String)
    (hres : resolve_db_path w.dbArg w.databaseUrl = Except.ok p) :
    main w =
      if w.pathExists p = false then ⟨2, []⟩
      else
        match w.fetchResult with
        | Except.error _ => ⟨3, [Event.connect p]⟩
        | Except.ok rows =>
          ⟨0, [Event.connect p,
               Event.writeFile (w.scriptDir ++ "/" ++ w.outArg)
                 (header :: rows.map plannedRow)]⟩ := by
  unfold main
  rw [hres]

/-- Claim C3 counterexample: on the error path where the read of
`asset_snapshots` fails, the run emits an open-connection event but never
a close-connection event — the source has no `conn.close()`, `with`
block, or `finally` clause, so the connection is not explicitly released. -/
theorem C3_counterexample :
    Event.connect "snap.db" ∈
      (main ⟨some "snap.db", "out.csv", Option.none, fun _ => true,
        Except.error "no such table: asset_snapshots", "."⟩).events ∧
    ((main ⟨some "snap.db", "out.csv", Option.none, fun _ => true,
        Except.error "no such table: asset_snapshots", "."⟩).events).count
      Event.closeConnection = 0 := by
  exact ⟨by decide, by decide⟩

/-- Claim C3 (amended): the connection to the store is never explicitly
closed on any execution path — the effect trace of every run contains no
close event; the connection is released only implicitly when the process
terminates. -/
theorem C3_never_explicitly_closed (w : World) :
    ((main w).events).count Event.closeConnection = 0 := by
  unfold main
  split
  · rfl
  · split
    · rfl
    · split <;> rfl

/-- Claim C6: with a falsy `--db` argument and a falsy `DATABASE_URL`,
`resolve_db_path` raises `SystemExit` with a message, so the process
terminates with exit code 1 and an empty effect trace: no connection is
opened and no output file is created or altered. -/
theorem C6_missing_location_exit1 (w : World)
    (hdb : w.dbArg = Option.none ∨ w.dbArg = some "")
    (henv : w.databaseUrl = Option.none ∨ w.databaseUrl = some "") :
    main w = ⟨1, []⟩ := by
  have hres : resolve_db_path w.dbArg w.databaseUrl = Except.error noDbMessage := by
    rcases hdb with h | h <;> rcases henv with h2 | h2 <;> rw [h, h2] <;> rfl
  unfold main
  rw [hres]

/-- Claim C6 witness: a run with no `--db` and no `DATABASE_URL` exits
with code 1 and touches nothing. -/
theorem C6_witness :
    main ⟨Option.none, "migrate-snapshots-to-nisab-planned.csv", Option.none,
      fun _ => false, Except.error "x", "."⟩ = ⟨1, []⟩ :=
  C6_missing_location_exit1 _ (Or.inl rfl) (Or.inl rfl)

/-- Claim C7: once the path is resolved, a missing file terminates the run
with exit code 2 (and an empty trace), a failing table read terminates it
with exit code 3, and a successful read always exits with code 0 whatever
the row contents are — so 2 and 3 are the only fatal outcomes after
resolution and per-row anomalies never escalate to them. -/
theorem C7_exit_codes_after_resolution (w : World) (p : String)
    (hres : resolve_db_path w.dbArg w.databaseUrl = Except.ok p) :
    (w.pathExists p = false → main w = ⟨2, []⟩) ∧
    (∀ e : String, w.pathExists p = true → w.fetchResult = Except.error e →
      main w = ⟨3, [Event.connect p]⟩) ∧
    (∀ rows : List LegacySnapshot, w.pathExists p = true →
      w.fetchResult = Except.ok rows → (main w).exitCode = 0) := by
  refine ⟨?_, ?_, ?_⟩
  · intro hex
    rw [main_resolved w p hres, hex]
    rfl
  · intro e hex herr
    rw [main_resolved w p hres, hex, herr]
    rfl
  · intro rows hex hfetch
    rw [main_resolved w p hres, hex, hfetch]
    rfl

/-- Claim C7 witness: the three outcomes at concrete runs — missing file
(exit 2), missing table (exit 3), and a well-formed read (exit 0). -/
theorem C7_witness :
    main ⟨some "/no/such/file", "o.csv", Option.none, fun _ => false,
      Except.error "x", "."⟩ = ⟨2, []⟩ ∧
    main ⟨some "dev.db", "o.csv", Option.none, fun _ => true,
      Except.error "no such table: asset_snapshots", "."⟩ =
      ⟨3, [Event.connect "dev.db"]⟩ ∧
    (main ⟨some "dev.db", "o.csv", Option.none, fun _ => true,
      Except.ok [], "."⟩).exitCode = 0 := by
  refine ⟨?_, ?_, ?_⟩
  · exact (C7_exit_codes_after_resolution _ "/no/such/file" (by decide)).1 rfl
  · exact (C7_exit_codes_after_resolution _ "dev.db" (by decide)).2.1
      "no such table: asset_snapshots" rfl rfl
  · exact (C7_exit_codes_after_resolution _ "dev.db" (by decide)).2.2 [] rfl rfl

/-- Claim C8: a successful run writes exactly one output file whose
content is the fixed 12-column header followed by one derived row per
fetched row; each data row also has 12 cells, the row count is the input
count plus the header, and the i-th data row is derived from the i-th
input row, so no row is dropped, duplicated, or reordered. -/
theorem C8_output_shape (w : World) (p : String) (rows : List LegacySnapshot)
    (hres : resolve_db_path w.dbArg w.databaseUrl = Except.ok p)
    (hex : w.pathExists p = true)
    (hfetch : w.fetchResult = Except.ok rows) :
    (main w).events =
      [Event.connect p,
       Event.writeFile (w.scriptDir ++ "/" ++ w.outArg)
         (header :: rows.map plannedRow)] ∧
    header.length = 12 ∧
    (∀ r : LegacySnapshot, (plannedRow r).length = 12) ∧
    (header :: rows.map plannedRow).length = rows.length + 1 ∧
    (∀ i : Nat, (rows.map plannedRow)[i]? = rows[i]?.map plannedRow) := by
  refine ⟨?_, rfl, fun _ => rfl, by simp, fun i => List.getElem?_map plannedRow rows i⟩
  rw [main_resolved w p hres, hex, hfetch]
  rfl

/-- Claim C8 witness: a one-row run writes the header plus exactly that
row's derived record. -/
theorem C8_witness :
    (main ⟨some "dev.db", "out.csv", Option.none, fun _ => true,
      Except.ok [⟨"s1", "u1", some "2023-06-15T00:00:00", Option.none,
        Option.none, Option.none, some "1445", 1, "2024-01-01T00:00:00"⟩],
      "."⟩).events =
    [Event.connect "dev.db",
     Event.writeFile ("." ++ "/" ++ "out.csv")
       (header :: List.map plannedRow
         [⟨"s1", "u1", some "2023-06-15T00:00:00", Option.none,
           Option.none, Option.none, some "1445", 1, "2024-01-01T00:00:00"⟩])] :=
  (C8_output_shape _ "dev.db" _ (by decide) rfl rfl).1

end ZakApp
